import Mathlib

/-!
Verification development for `validate_ontology.py`, the ontology bundle
validator of the EvidenceOS TBI YAML modules.

The script is shallowly embedded: a loaded YAML document is a `Yaml` tree
(numbers are modelled as rationals, which identifies Python `int` and
`float`; Python `==` across `int`/`float` is numeric equality, so value
comparison is structural equality on `Yaml`), each consistency rule is a
pure function from document trees to the list of error strings it appends,
and the orchestrator `main` is a function of an abstract `World` (the file
system, the optional `jsonschema` dependency and the CLI flag) returning
the printed lines and the exit code, or the message of an uncaught
exception.
-/

/- The library marks rational arithmetic `@[irreducible]`, which blocks the
`decide`/`rfl` evaluation of the concrete runs below; restore the ordinary
reducibility of those definitions (a transparency setting only — proofs still
pass through the kernel unchanged). -/
set_option allowUnsafeReducibility true in
attribute [semireducible] Rat.add Rat.sub Rat.mul Rat.inv Rat.ofScientific

/-- A parsed YAML document: Python's `None`, `bool`, numbers (`int` and
`float`, collapsed into `ℚ`), `str`, `list` and `dict` (an insertion-ordered
association list, as Python dicts are). -/
inductive Yaml where
  | null
  | bool (b : Bool)
  | num (q : ℚ)
  | str (s : String)
  | list (items : List Yaml)
  | dict (entries : List (String × Yaml))

mutual

/-- Structural equality on `Yaml` trees. This is Python `==` on the shapes the
validator compares: `None`, strings, numbers (numeric equality, via `ℚ`) and
lists (elementwise). Python additionally identifies `True` with `1` and
compares dicts ignoring key order; no comparison made by the validator puts a
bool against a number or a dict against a dict. -/
def Yaml.beq : Yaml → Yaml → Bool
  | .null, .null => true
  | .bool a, .bool b => a == b
  | .num a, .num b => a == b
  | .str a, .str b => a == b
  | .list xs, .list ys => Yaml.beqList xs ys
  | .dict xs, .dict ys => Yaml.beqDict xs ys
  | _, _ => false

/-- Elementwise `Yaml.beq` on lists. -/
def Yaml.beqList : List Yaml → List Yaml → Bool
  | [], [] => true
  | x :: xs, y :: ys => Yaml.beq x y && Yaml.beqList xs ys
  | _, _ => false

/-- Entrywise `Yaml.beq` on dict entry lists. -/
def Yaml.beqDict : List (String × Yaml) → List (String × Yaml) → Bool
  | [], [] => true
  | (k, v) :: xs, (l, w) :: ys => k == l && Yaml.beq v w && Yaml.beqDict xs ys
  | _, _ => false

end

mutual

theorem Yaml.beq_iff : ∀ a b : Yaml, Yaml.beq a b = true ↔ a = b
  | .null, .null => by simp [Yaml.beq]
  | .null, .bool _ => by simp [Yaml.beq]
  | .null, .num _ => by simp [Yaml.beq]
  | .null, .str _ => by simp [Yaml.beq]
  | .null, .list _ => by simp [Yaml.beq]
  | .null, .dict _ => by simp [Yaml.beq]
  | .bool _, .null => by simp [Yaml.beq]
  | .bool _, .bool _ => by simp [Yaml.beq]
  | .bool _, .num _ => by simp [Yaml.beq]
  | .bool _, .str _ => by simp [Yaml.beq]
  | .bool _, .list _ => by simp [Yaml.beq]
  | .bool _, .dict _ => by simp [Yaml.beq]
  | .num _, .null => by simp [Yaml.beq]
  | .num _, .bool _ => by simp [Yaml.beq]
  | .num _, .num _ => by simp [Yaml.beq]
  | .num _, .str _ => by simp [Yaml.beq]
  | .num _, .list _ => by simp [Yaml.beq]
  | .num _, .dict _ => by simp [Yaml.beq]
  | .str _, .null => by simp [Yaml.beq]
  | .str _, .bool _ => by simp [Yaml.beq]
  | .str _, .num _ => by simp [Yaml.beq]
  | .str _, .str _ => by simp [Yaml.beq]
  | .str _, .list _ => by simp [Yaml.beq]
  | .str _, .dict _ => by simp [Yaml.beq]
  | .list _, .null => by simp [Yaml.beq]
  | .list _, .bool _ => by simp [Yaml.beq]
  | .list _, .num _ => by simp [Yaml.beq]
  | .list _, .str _ => by simp [Yaml.beq]
  | .list xs, .list ys => by simpa [Yaml.beq] using Yaml.beqList_iff xs ys
  | .list _, .dict _ => by simp [Yaml.beq]
  | .dict _, .null => by simp [Yaml.beq]
  | .dict _, .bool _ => by simp [Yaml.beq]
  | .dict _, .num _ => by simp [Yaml.beq]
  | .dict _, .str _ => by simp [Yaml.beq]
  | .dict _, .list _ => by simp [Yaml.beq]
  | .dict xs, .dict ys => by simpa [Yaml.beq] using Yaml.beqDict_iff xs ys

theorem Yaml.beqList_iff : ∀ xs ys : List Yaml, Yaml.beqList xs ys = true ↔ xs = ys
  | [], [] => by simp [Yaml.beqList]
  | [], _ :: _ => by simp [Yaml.beqList]
  | _ :: _, [] => by simp [Yaml.beqList]
  | x :: xs, y :: ys => by
      simp [Yaml.beqList, Yaml.beq_iff x y, Yaml.beqList_iff xs ys]

theorem Yaml.beqDict_iff :
    ∀ xs ys : List (String × Yaml), Yaml.beqDict xs ys = true ↔ xs = ys
  | [], [] => by simp [Yaml.beqDict]
  | [], _ :: _ => by simp [Yaml.beqDict]
  | _ :: _, [] => by simp [Yaml.beqDict]
  | (k, v) :: xs, (l, w) :: ys => by
      simp [Yaml.beqDict, Yaml.beq_iff v w, Yaml.beqDict_iff xs ys, Prod.ext_iff]

end

instance : DecidableEq Yaml := fun a b => decidable_of_iff _ (Yaml.beq_iff a b)

/-- Python `d.get(key, default)` on a document node. The validator only calls
`.get` on nodes that are mappings or on the `{}`/`[]` defaults of an enclosing
`.get`; on a non-mapping node Python would raise `AttributeError`, which no
validated document shape reaches, and the model returns the default. -/
def Yaml.getD (v : Yaml) (key : String) (default : Yaml) : Yaml :=
  match v with
  | .dict entries => (List.lookup key entries).getD default
  | _ => default

/-- Python `d.get(key)`: `None` when the key is absent. YAML loads an explicit
`null` value as `None` as well, so `Yaml.null` plays both roles, exactly as in
the script's `is None` tests. -/
def Yaml.get (v : Yaml) (key : String) : Yaml :=
  v.getD key .null

/-- Python truthiness of a document node (`if windows:`, `if payload.get("id"):`,
`if not contract.get(...):`). -/
def Yaml.truthy : Yaml → Bool
  | .null => false
  | .bool b => b
  | .num q => q ≠ 0
  | .str s => s ≠ ""
  | .list items => items ≠ []
  | .dict entries => entries ≠ []

/-- Python iteration over a document node (`for item in variables:`,
`set(applies_to)`, `set.update(...)`): lists yield their items, strings their
characters, dicts their keys. Iterating `None`, a bool or a number raises
`TypeError` in Python; no validated document shape does so, and the model
yields nothing. -/
def Yaml.pyIter : Yaml → List Yaml
  | .list items => items
  | .str s => s.data.map fun c => .str (String.singleton c)
  | .dict entries => entries.map fun kv => .str kv.1
  | _ => []

/-- Python `d.values()` on a mapping node. -/
def Yaml.values : Yaml → List Yaml
  | .dict entries => entries.map Prod.snd
  | _ => []

/-- Python `d.keys()` on a mapping node, as the list of keys. -/
def Yaml.keys : Yaml → List String
  | .dict entries => entries.map Prod.fst
  | _ => []

/-- Python `len(x)` on the shapes the validator measures (lists). -/
def Yaml.pyLen : Yaml → Nat
  | .list items => items.length
  | .dict entries => entries.length
  | .str s => s.length
  | _ => 0

/-- Python `isinstance(x, dict)`. -/
def Yaml.isDict : Yaml → Bool
  | .dict _ => true
  | _ => false

/-- Decimal digits of a fractional part `0 ≤ x < 1`, with fuel; rendering stops
when the remainder reaches zero. Every constant the validator prints has a
finite decimal expansion. -/
def fracDigits : ℚ → Nat → String
  | _, 0 => ""
  | x, n + 1 =>
    let y := x * 10
    let d := Rat.floor y
    let rest := y - d
    toString d.toNat ++ (if rest = 0 then "" else fracDigits rest n)

/-- Python `str()` of a float with a finite decimal expansion: at least one
digit on each side of the point, so `str(30.0) = "30.0"` and
`str(29.5) = "29.5"`. -/
def pyFloatStr (q : ℚ) : String :=
  let sign := if q < 0 then "-" else ""
  let a := |q|
  let ip := Rat.floor a
  let fp := a - ip
  sign ++ toString ip.toNat ++ "." ++ (if fp = 0 then "0" else fracDigits fp 40)

/-- Python `str()`/`repr()` of a number. The model collapses `int` and `float`
into `ℚ`; an integral value renders in `int` style (`"24"`), the style of every
integer constant the script prints, and any other value in float style. -/
def pyNumStr (q : ℚ) : String :=
  if q.den = 1 then toString q.num else pyFloatStr q

mutual

/-- Python `repr()` of a document value, as interpolated by `f"{x!r}"`. -/
def Yaml.pyRepr : Yaml → String
  | .null => "None"
  | .bool b => if b then "True" else "False"
  | .num q => pyNumStr q
  | .str s => "'" ++ s ++ "'"
  | .list items => "[" ++ String.intercalate ", " (Yaml.pyReprList items) ++ "]"
  | .dict entries => "\x7b" ++ String.intercalate ", " (Yaml.pyReprDict entries) ++ "\x7d"

/-- The `repr`s of a list's items. -/
def Yaml.pyReprList : List Yaml → List String
  | [] => []
  | x :: xs => x.pyRepr :: Yaml.pyReprList xs

/-- The `repr`s of a dict's entries. -/
def Yaml.pyReprDict : List (String × Yaml) → List String
  | [] => []
  | (k, v) :: es => ("'" ++ k ++ "': " ++ v.pyRepr) :: Yaml.pyReprDict es

end

/-- Python `str()` of a document value, as interpolated by `f"{x}"`: identical
to `repr()` except on strings, which render without quotes. -/
def Yaml.pyStr : Yaml → String
  | .str s => s
  | v => v.pyRepr

/-- Python `str()` of a list of Python strings (`f"{missing}"` where `missing`
is a sorted list of field names). -/
def pyStrListRepr (ss : List String) : String :=
  "[" ++ String.intercalate ", " (ss.map fun s => "'" ++ s ++ "'") ++ "]"

/-- Code-point comparison of character lists: Python's `<=` on strings. -/
def charListLe : List Char → List Char → Bool
  | [], _ => true
  | _ :: _, [] => false
  | a :: as, b :: bs =>
    if a.toNat < b.toNat then true
    else if b.toNat < a.toNat then false
    else charListLe as bs

/-- Python's `<=` on strings: lexicographic by code point. -/
def pyStrLe (a b : String) : Bool :=
  charListLe a.data b.data

theorem Char.eq_of_toNat_eq {a b : Char} (h : a.toNat = b.toNat) : a = b :=
  Char.eq_of_val_eq (UInt32.ext h)

theorem charListLe_iff_not_lex :
    ∀ as bs : List Char, charListLe as bs = true ↔ ¬ List.Lex (· < ·) bs as
  | [], bs => by
      simp only [charListLe, true_iff]
      exact List.Lex.not_nil_right _ _
  | _ :: _, [] => by
      simp only [charListLe, Bool.false_eq_true, false_iff, not_not]
      exact List.Lex.nil
  | a :: as, b :: bs => by
      simp only [charListLe]
      rcases Nat.lt_trichotomy a.toNat b.toNat with h1 | h2 | h3
      · simp only [h1, if_pos, true_iff]
        intro hl
        cases hl with
        | cons _ => exact Nat.lt_irrefl _ h1
        | rel h => exact Nat.lt_asymm h1 h
      · have hab : a = b := Char.eq_of_toNat_eq h2
        subst hab
        simp only [Nat.lt_irrefl, if_false, ite_self]
        rw [charListLe_iff_not_lex as bs]
        constructor
        · intro h hl
          cases hl with
          | cons h' => exact h h'
          | rel h' => exact Nat.lt_irrefl _ h'
        · intro h hl
          exact h (List.Lex.cons hl)
      · have hnot : ¬ a.toNat < b.toNat := Nat.lt_asymm h3
        simp only [hnot, if_false, if_pos h3, Bool.false_eq_true, false_iff, not_not]
        exact List.Lex.rel h3

/-- The executable comparison agrees with Mathlib's linear order on `String`,
so "sorted by `pyStrLe`" is sortedness in the usual sense. -/
theorem pyStrLe_iff_le (a b : String) : pyStrLe a b = true ↔ a ≤ b := by
  rw [pyStrLe, charListLe_iff_not_lex]
  rw [show (a ≤ b) ↔ ¬ b < a from not_lt.symm]
  rw [String.lt_iff_toList_lt]
  exact Iff.rfl

instance : IsTotal String fun a b => pyStrLe a b = true :=
  ⟨fun a b => by
    rcases le_total a b with h | h
    · exact Or.inl ((pyStrLe_iff_le a b).mpr h)
    · exact Or.inr ((pyStrLe_iff_le b a).mpr h)⟩

instance : IsTrans String fun a b => pyStrLe a b = true :=
  ⟨fun a b c hab hbc =>
    (pyStrLe_iff_le a c).mpr
      (le_trans ((pyStrLe_iff_le a b).mp hab) ((pyStrLe_iff_le b c).mp hbc))⟩

/-- Python `sorted()` over strings. -/
def pySortedStr (ss : List String) : List String :=
  List.insertionSort (fun a b => pyStrLe a b = true) ss

/-- The sort key Python uses on the identifier values the validator sorts: all
of them are strings (sorting values of mixed type would raise `TypeError`). -/
def Yaml.sortKey : Yaml → String
  | .str s => s
  | _ => ""

/-- Python `sorted()` over a collection of identifier values. -/
def pySortedYaml (vs : List Yaml) : List Yaml :=
  List.insertionSort (fun a b => pyStrLe a.sortKey b.sortKey = true) vs

instance : IsTotal Yaml fun a b => pyStrLe a.sortKey b.sortKey = true :=
  ⟨fun a b => total_of (fun x y : String => pyStrLe x y = true) a.sortKey b.sortKey⟩

instance : IsTrans Yaml fun a b => pyStrLe a.sortKey b.sortKey = true :=
  ⟨fun _ _ _ hab hbc =>
    Trans.trans (r := fun x y : String => pyStrLe x y = true)
      (s := fun x y : String => pyStrLe x y = true) hab hbc⟩

/-- The fixed expected decision thresholds (pg/mL), float literals in the
script: GFAP 30.0, UCH-L1 360.0. -/
def EXPECTED_THRESHOLDS : List (String × ℚ) :=
  [("gfap_pg_ml", 30), ("uchl1_pg_ml", 360)]

/-- Indexing `EXPECTED_THRESHOLDS[analyte]`; both keys used by the script are
present, so the default is never reached. -/
def expectedThreshold (analyte : String) : ℚ :=
  (EXPECTED_THRESHOLDS.lookup analyte).getD 0

/-- The fixed expected clearance-kinetics values: scalars are `int` literals
and ranges are `int` lists in the script. -/
def EXPECTED_KINETICS : List (String × Yaml) :=
  [("gfap_clearance_half_life_hours", .num 24),
   ("gfap_clearance_half_life_range_hours", .list [.num 24, .num 36]),
   ("uchl1_clearance_half_life_hours", .num 8),
   ("uchl1_clearance_half_life_range_hours", .list [.num 7, .num 9])]

/-- Indexing `EXPECTED_KINETICS[key]`; every key used by the script is present,
so the default is never reached. -/
def kineticsExpected (key : String) : Yaml :=
  (EXPECTED_KINETICS.lookup key).getD .null

/-- `nearly_equal(a, b, tol=1e-9)`: `math.isclose` with `abs_tol=tol` and
`rel_tol=0.0`, which holds exactly when `|a - b| <= tol`. The model works over
`ℚ`, so the `float(...)` coercions of the script are the identity and `1e-9`
is exactly `10 ^ (-9)`. -/
def nearly_equal (a b : ℚ) (tol : ℚ := 1 / 1000000000) : Bool :=
  decide (|a - b| ≤ tol)

/-- Python `float(x)` on a document scalar: numbers map to themselves and
bools to 0/1. On `None`, lists and dicts `float` raises `TypeError` (and on
non-numeric strings `ValueError`); the script never reaches a coercion of
those shapes on a validated document, and the model yields `none`. -/
def Yaml.toFloat? : Yaml → Option ℚ
  | .num q => some q
  | .bool b => some (if b then 1 else 0)
  | _ => none

/-- `nearly_equal` applied to a looked-up document value, as the rules call it:
the value is coerced to float first. A shape `float` would reject compares as
not equal (the script would have raised there; no theorem below exercises such
a value). -/
def nearly_equalY (v : Yaml) (b : ℚ) : Bool :=
  match v.toFloat? with
  | some a => nearly_equal a b
  | none => false

/-- The loop of `get_biomarker_threshold`: first item whose `id` equals the
analyte wins, and its `ct_threshold` (possibly `None`) is returned. -/
def firstThresholdMatch (analyte_id : String) : List Yaml → Yaml
  | [] => .null
  | item :: rest =>
    if item.get "id" = Yaml.str analyte_id then item.get "ct_threshold"
    else firstThresholdMatch analyte_id rest

/-- `get_biomarker_threshold(cbim, analyte_id)`: walk
`channels.biomarker.variables` and return the first matching variable's
`ct_threshold`, or `None`. -/
def get_biomarker_threshold (cbim : Yaml) (analyte_id : String) : Yaml :=
  let vars :=
    ((cbim.getD "channels" (.dict [])).getD "biomarker" (.dict [])).getD
      "variables" (.list [])
  firstThresholdMatch analyte_id vars.pyIter

/-- One of the four independent checks of rule 1, as each block of
`validate_threshold_consistency` performs it: a `None` lookup yields the
missing error, a value not tolerance-equal to the expected constant yields the
mismatch error naming actual and expected, and a matching value yields
nothing. -/
def threshold_check (v : Yaml) (missingMsg mismatchPrefix : String) (expected : ℚ) :
    List String :=
  if v = .null then [missingMsg]
  else if ¬ nearly_equalY v expected then
    [mismatchPrefix ++ v.pyStr ++ " != " ++ pyFloatStr expected]
  else []

/-- Rule 1, `validate_threshold_consistency`: the four lookups and the four
if-blocks of the script, in order. -/
def validate_threshold_consistency (cbim provenance : Yaml) : List String :=
  let cbim_gfap := get_biomarker_threshold cbim "gfap_pg_ml"
  let cbim_uchl1 := get_biomarker_threshold cbim "uchl1_pg_ml"
  let prov_gfap :=
    ((provenance.getD "threshold_provenance" (.dict [])).getD
      "gfap_ct_threshold" (.dict [])).get "value"
  let prov_uchl1 :=
    ((provenance.getD "threshold_provenance" (.dict [])).getD
      "uchl1_ct_threshold" (.dict [])).get "value"
  (if cbim_gfap = .null then
    ["cbim_framework.yaml missing biomarker variable 'gfap_pg_ml' ct_threshold"]
   else if ¬ nearly_equalY cbim_gfap (expectedThreshold "gfap_pg_ml") then
    ["GFAP threshold mismatch in cbim_framework.yaml: " ++ cbim_gfap.pyStr ++
      " != " ++ pyFloatStr (expectedThreshold "gfap_pg_ml")]
   else [])
  ++ (if cbim_uchl1 = .null then
    ["cbim_framework.yaml missing biomarker variable 'uchl1_pg_ml' ct_threshold"]
   else if ¬ nearly_equalY cbim_uchl1 (expectedThreshold "uchl1_pg_ml") then
    ["UCH-L1 threshold mismatch in cbim_framework.yaml: " ++ cbim_uchl1.pyStr ++
      " != " ++ pyFloatStr (expectedThreshold "uchl1_pg_ml")]
   else [])
  ++ (if prov_gfap = .null then
    ["provenance.yaml missing threshold_provenance.gfap_ct_threshold.value"]
   else if ¬ nearly_equalY prov_gfap (expectedThreshold "gfap_pg_ml") then
    ["GFAP threshold mismatch in provenance.yaml: " ++ prov_gfap.pyStr ++
      " != " ++ pyFloatStr (expectedThreshold "gfap_pg_ml")]
   else [])
  ++ (if prov_uchl1 = .null then
    ["provenance.yaml missing threshold_provenance.uchl1_ct_threshold.value"]
   else if ¬ nearly_equalY prov_uchl1 (expectedThreshold "uchl1_pg_ml") then
    ["UCH-L1 threshold mismatch in provenance.yaml: " ++ prov_uchl1.pyStr ++
      " != " ++ pyFloatStr (expectedThreshold "uchl1_pg_ml")]
   else [])

/-- Rule 2, `validate_provenance_applicability`: each threshold-provenance
block must carry an `applies_to` containing at least `adult` and `mild_tbi`;
what is absent is reported sorted. -/
def validate_provenance_applicability (provenance : Yaml) : List String :=
  let threshold_provenance := provenance.getD "threshold_provenance" (.dict [])
  (["gfap_ct_threshold", "uchl1_ct_threshold"]).flatMap fun field =>
    let applies_to := (threshold_provenance.getD field (.dict [])).get "applies_to"
    if applies_to = .null then
      ["provenance.yaml missing threshold_provenance." ++ field ++ ".applies_to"]
    else
      let missing := pySortedStr ((["adult", "mild_tbi"]).filter fun s =>
        decide (Yaml.str s ∉ applies_to.pyIter))
      if missing ≠ [] then
        ["provenance.yaml " ++ field ++ ".applies_to missing required contexts: " ++
          pyStrListRepr missing]
      else []

/-- The legacy-shape loop of rule 3: each of the four legacy keys compared
against its fixed expected value with Python `==`/`!=` (exact equality, no
floating tolerance), one missing or mismatch error per key. A function of the
`key_biomarker_windows` container alone. -/
def legacyKineticsChecks (windows : Yaml) : List String :=
  EXPECTED_KINETICS.flatMap fun ke =>
    let actual := windows.get ke.1
    if actual = .null then
      ["temporal_phases.yaml missing subacute.key_biomarker_windows." ++ ke.1]
    else if actual ≠ ke.2 then
      ["Temporal kinetics mismatch for " ++ ke.1 ++ ": " ++ actual.pyRepr ++
        " != " ++ ke.2.pyRepr]
    else []

/-- The current-shape (v3) checks of rule 3: per-analyte half-life ranges under
`biomarker_clearance_kinetics`, compared with exact list equality. -/
def currentKineticsChecks (subacute : Yaml) : List String :=
  let clearance := subacute.getD "biomarker_clearance_kinetics" (.dict [])
  let gfap_range := (clearance.getD "gfap" (.dict [])).get "half_life_hours"
  let uchl1_range := (clearance.getD "uchl1" (.dict [])).get "half_life_hours"
  (if gfap_range = .null then
    ["temporal_phases.yaml missing subacute.biomarker_clearance_kinetics.gfap.half_life_hours"]
   else if gfap_range ≠ kineticsExpected "gfap_clearance_half_life_range_hours" then
    ["Temporal kinetics mismatch for gfap half-life range: " ++ gfap_range.pyRepr ++
      " != " ++ (kineticsExpected "gfap_clearance_half_life_range_hours").pyRepr]
   else [])
  ++ (if uchl1_range = .null then
    ["temporal_phases.yaml missing subacute.biomarker_clearance_kinetics.uchl1.half_life_hours"]
   else if uchl1_range ≠ kineticsExpected "uchl1_clearance_half_life_range_hours" then
    ["Temporal kinetics mismatch for uchl1 half-life range: " ++ uchl1_range.pyRepr ++
      " != " ++ (kineticsExpected "uchl1_clearance_half_life_range_hours").pyRepr]
   else [])

/-- Rule 3, `validate_temporal_kinetics`: a truthy (present and non-empty)
legacy `key_biomarker_windows` container selects the legacy checks and returns
without touching the current shape; otherwise the current-shape checks run. -/
def validate_temporal_kinetics (temporal : Yaml) : List String :=
  let subacute := (temporal.getD "phases" (.dict [])).getD "subacute" (.dict [])
  let windows := subacute.getD "key_biomarker_windows" (.dict [])
  if windows.truthy then legacyKineticsChecks windows
  else currentKineticsChecks subacute

/-- Rule 4, `validate_temporal_thresholds`: the temporal module's own decision
thresholds under `biomarker_kinetics.<analyte>.ct_decision_threshold.value`,
checked with the same tolerance and constants as rule 1. -/
def validate_temporal_thresholds (temporal : Yaml) : List String :=
  let kinetics := temporal.getD "biomarker_kinetics" (.dict [])
  let gfap_threshold :=
    ((kinetics.getD "gfap" (.dict [])).getD "ct_decision_threshold" (.dict [])).get "value"
  let uchl1_threshold :=
    ((kinetics.getD "uchl1" (.dict [])).getD "ct_decision_threshold" (.dict [])).get "value"
  (if gfap_threshold = .null then
    ["temporal_phases.yaml missing biomarker_kinetics.gfap.ct_decision_threshold.value"]
   else if ¬ nearly_equalY gfap_threshold (expectedThreshold "gfap_pg_ml") then
    ["Temporal GFAP threshold mismatch: " ++ gfap_threshold.pyStr ++ " != " ++
      pyFloatStr (expectedThreshold "gfap_pg_ml")]
   else [])
  ++ (if uchl1_threshold = .null then
    ["temporal_phases.yaml missing biomarker_kinetics.uchl1.ct_decision_threshold.value"]
   else if ¬ nearly_equalY uchl1_threshold (expectedThreshold "uchl1_pg_ml") then
    ["Temporal UCH-L1 threshold mismatch: " ++ uchl1_threshold.pyStr ++ " != " ++
      pyFloatStr (expectedThreshold "uchl1_pg_ml")]
   else [])

/-- The list comprehension of rule 5: the `id` of every phase detail payload
that is a mapping and carries a truthy `id`. -/
def actualPhaseIds (phase_blocks : Yaml) : List Yaml :=
  phase_blocks.values.filterMap fun payload =>
    if payload.isDict && (payload.get "id").truthy then some (payload.get "id")
    else none

/-- Rule 5, `validate_temporal_phase_ids`: every canonical phase id must appear
as some detail block's id; the missing ones are reported as a sorted set. -/
def validate_temporal_phase_ids (temporal : Yaml) : List String :=
  let canonical := (temporal.getD "schema_contract" (.dict [])).getD "canonical_phase_ids" (.list [])
  let phase_blocks := temporal.getD "phases" (.dict [])
  let actual_ids := actualPhaseIds phase_blocks
  let missing := pySortedYaml ((canonical.pyIter.dedup).filter fun c =>
    decide (c ∉ actual_ids))
  if missing ≠ [] then
    ["temporal_phases.yaml missing phase IDs declared in schema_contract: " ++
      (Yaml.list missing).pyRepr]
  else []

/-- The phase ids referenced by the imaging elements: the `temporal_phases` of
every element of the core list then of the supplementary list, as rule 6
accumulates them into its used-set. -/
def referencedPhaseIds (imaging : Yaml) : List Yaml :=
  (["core_cdes", "supplementary_cdes"]).flatMap fun sec =>
    (imaging.getD sec (.list [])).pyIter.flatMap fun cde =>
      (cde.getD "temporal_phases" (.list [])).pyIter

/-- Rule 6, `validate_phase_alignment`: one error when the two canonical phase
id lists differ at all (order included), and one error listing, sorted and
deduplicated, every referenced phase id outside the temporal canonical set. -/
def validate_phase_alignment (temporal imaging : Yaml) : List String :=
  let temporal_ids := (temporal.getD "schema_contract" (.dict [])).getD "canonical_phase_ids" (.list [])
  let imaging_ids := (imaging.getD "schema_contract" (.dict [])).getD "canonical_phase_ids" (.list [])
  (if temporal_ids ≠ imaging_ids then
    ["Canonical phase ID mismatch between temporal_phases.yaml and imaging_cdes.yaml"]
   else [])
  ++ (let valid_phase_ids := temporal_ids.pyIter
      let used_phase_ids := referencedPhaseIds imaging
      let unknown := pySortedYaml ((used_phase_ids.dedup).filter fun u =>
        decide (u ∉ valid_phase_ids))
      if unknown ≠ [] then
        ["imaging_cdes.yaml references unknown temporal phase IDs: " ++
          (Yaml.list unknown).pyRepr]
      else [])

/-- Rule 7, `validate_tapvi_and_counts`: exactly 9 core and 18 supplementary
elements, `tapvi` present among the supplementary ids, `tamvi` absent. -/
def validate_tapvi_and_counts (imaging : Yaml) : List String :=
  let core := imaging.getD "core_cdes" (.list [])
  let supplementary := imaging.getD "supplementary_cdes" (.list [])
  (if core.pyLen ≠ 9 then
    ["Expected 9 core CDEs, found " ++ toString core.pyLen]
   else [])
  ++ (if supplementary.pyLen ≠ 18 then
    ["Expected 18 supplementary CDEs, found " ++ toString supplementary.pyLen]
   else [])
  ++ (let ids := supplementary.pyIter.map fun cde => cde.get "id"
      (if decide (Yaml.str "tapvi" ∉ ids) then
        ["imaging_cdes.yaml missing supplementary CDE id 'tapvi'"]
       else [])
      ++ (if decide (Yaml.str "tamvi" ∈ ids) then
        ["imaging_cdes.yaml still contains deprecated id 'tamvi'"]
       else []))

/-- The five module names rule 8 requires the optional-mapping flag of. -/
def modules_requiring_mappings : List String :=
  ["cbim_framework", "clinical_entities", "imaging_cdes", "provenance",
   "implementation_science"]

/-- Python `files[name]`: subscripting a mapping raises `KeyError(name)` when
the key is absent, modelled as the `Except` error. -/
def pySubscript (files : List (String × Yaml)) (name : String) : Except String Yaml :=
  match files.lookup name with
  | some v => Except.ok v
  | none => Except.error ("KeyError: '" ++ name ++ "'")

/-- The flag loop of rule 8: for each required module name in order, subscript
the mapping — `KeyError` when the name is absent — and append an error when
`schema_contract.mapping_fields_optional` is missing or falsy. -/
def mappingFlagErrors (files : List (String × Yaml)) :
    List String → Except String (List String)
  | [] => Except.ok []
  | name :: rest =>
    (pySubscript files name).bind fun m =>
      (mappingFlagErrors files rest).map fun more =>
        (if ¬ ((m.getD "schema_contract" (.dict [])).get "mapping_fields_optional").truthy
         then [name ++ ".yaml missing schema_contract.mapping_fields_optional"]
         else []) ++ more

/-- Rule 8, `validate_mapping_hooks`: the only rule that takes the whole
loaded-modules mapping. It subscripts `files[name]` directly, so an absent
module name raises (propagates as `Except.error`) instead of being skipped;
after the flag loop the imaging module's default mapping template must hold
the four required keys, absences reported sorted in one error. -/
def validate_mapping_hooks (files : List (String × Yaml)) : Except String (List String) :=
  (mappingFlagErrors files modules_requiring_mappings).bind fun errors =>
    (pySubscript files "imaging_cdes").map fun imaging =>
      let hooks := imaging.getD "standards_mapping_hooks" (.dict [])
      let template := hooks.getD "default_mapping_template" (.dict [])
      let required : List String :=
        ["radlex_id", "dicom_sr_code", "fhir_observation_code", "omop_concept_id"]
      let missing := pySortedStr (required.filter fun k => decide (k ∉ template.keys))
      errors ++
        (if missing ≠ [] then
          ["imaging_cdes.yaml standards_mapping_hooks.default_mapping_template missing keys: " ++
            pyStrListRepr missing]
         else [])

/-- The seven required modules, in the order `main` loads them: module name to
file name. -/
def YAML_FILES : List (String × String) :=
  [("cbim_framework", "cbim_framework.yaml"),
   ("clinical_entities", "clinical_entities.yaml"),
   ("imaging_cdes", "imaging_cdes.yaml"),
   ("temporal_phases", "temporal_phases.yaml"),
   ("provenance", "provenance.yaml"),
   ("implementation_science", "implementation_science.yaml"),
   ("methodology_extraction", "methodology_extraction.yaml")]

/-- What the file system and the YAML parser give `main` for one required
file: the file is absent, it fails to parse (`yaml.YAMLError`, carrying the
exception text), or it loads as a document tree. -/
inductive LoadResult where
  | missing
  | parseError (msg : String)
  | ok (doc : Yaml)

/-- The environment of one run of the script: what loading each file yields,
the `--skip-schema` flag, whether the `jsonschema` package imported, whether
`schema.json` exists, which module names its `$defs` holds, and the errors the
external `jsonschema.validate` call would report per module (an oracle for the
external schema-validation library, out of scope per the spec). -/
structure World where
  load : String → LoadResult
  skipSchema : Bool
  jsonschemaAvailable : Bool
  schemaExists : Bool
  schemaDefs : List String
  schemaValidate : String → Yaml → List String

/-- Whether one load attempt failed (missing file or parse error). -/
def LoadResult.failed : LoadResult → Bool
  | .ok _ => false
  | _ => true

/-- One iteration of the loading loop: a missing file or a parse failure
appends one error and excludes the module, a success adds the module to the
loaded mapping. -/
def loadStep (w : World) (acc : List String × List (String × Yaml))
    (mf : String × String) : List String × List (String × Yaml) :=
  match w.load mf.2 with
  | .missing => (acc.1 ++ ["Missing required ontology file: " ++ mf.2], acc.2)
  | .parseError msg =>
      (acc.1 ++ ["YAML parse error in " ++ mf.2 ++ ": " ++ msg], acc.2)
  | .ok doc => (acc.1, acc.2 ++ [(mf.1, doc)])

/-- The loading stage of `main`: every one of the seven files is attempted, in
order, whatever happened to the earlier ones. -/
def loadPhase (w : World) : List String × List (String × Yaml) :=
  YAML_FILES.foldl (loadStep w) ([], [])

/-- The schema stage of `main`, reached only when every file loaded: skipped
by the flag; one warning and nothing else when `jsonschema` is unavailable;
one error and nothing else when `schema.json` is missing; otherwise, per
loaded module, either a no-definition warning or the oracle's errors. Returns
(warnings appended, errors appended). -/
def schemaPhase (w : World) (loaded : List (String × Yaml)) :
    List String × List String :=
  if w.skipSchema then ([], [])
  else if w.jsonschemaAvailable = false then
    (["jsonschema package not installed; skipping schema validation"], [])
  else if w.schemaExists = false then ([], ["schema.json not found"])
  else
    loaded.foldl
      (fun acc md =>
        if md.1 ∈ w.schemaDefs then (acc.1, acc.2 ++ w.schemaValidate md.1 md.2)
        else
          (acc.1 ++
            ["schema.json has no $defs entry for " ++ md.1 ++
              "; skipping schema validation for this module"], acc.2))
      ([], [])

/-- The consistency stage of `main`: all eight rules run unconditionally, in
order, over `loaded[...]` subscripts. Python resolves each subscript at the
call site; after a fully successful load all seven names are present, so no
subscript can raise there, and the `Except` layer records the `KeyError` that
direct invocation on a partial mapping would raise. -/
def consistencyErrors (loaded : List (String × Yaml)) : Except String (List String) := do
  let cbim ← pySubscript loaded "cbim_framework"
  let provenance ← pySubscript loaded "provenance"
  let temporal ← pySubscript loaded "temporal_phases"
  let imaging ← pySubscript loaded "imaging_cdes"
  let hookErrors ← validate_mapping_hooks loaded
  return validate_threshold_consistency cbim provenance
    ++ validate_provenance_applicability provenance
    ++ validate_temporal_kinetics temporal
    ++ validate_temporal_thresholds temporal
    ++ validate_temporal_phase_ids temporal
    ++ validate_phase_alignment temporal imaging
    ++ validate_tapvi_and_counts imaging
    ++ hookErrors

/-- The warnings and errors accumulated over all stages that ran: on any load
failure the run holds only the load errors (the halt point); otherwise the
schema stage's warnings and errors followed by every consistency rule's
errors. -/
def accumulated (w : World) : Except String (List String × List String) :=
  let lp := loadPhase w
  if lp.1 ≠ [] then Except.ok ([], lp.1)
  else
    (consistencyErrors lp.2).map fun ce =>
      let sp := schemaPhase w lp.2
      (sp.1, sp.2 ++ ce)

/-- What one run prints (in order) and the process exit code. -/
structure RunResult where
  output : List String
  exitCode : Nat
deriving DecidableEq

/-- The first success line of `main`. -/
def okLine1 : String := "[OK] Ontology validation passed"

/-- The second success line of `main`. -/
def okLine2 : String :=
  "[OK] Threshold constants, kinetics, TAPVI terminology, and phase alignment are consistent"

/-- The tail of `main` (`main` itself being Lean's reserved entry-point name, the embedding calls it `main'`): print the warnings, then either the errors (exit 1) or the two
success lines (exit 0). On the load-failure halt the accumulated warnings are
empty, so the output is exactly the load errors. An `Except.error` is an
uncaught Python exception, which no reachable run produces. -/
def main' (w : World) : Except String RunResult :=
  (accumulated w).map fun we =>
    let warnLines := we.1.map fun s => "[WARN] " ++ s
    if we.2 ≠ [] then ⟨warnLines ++ we.2.map (fun e => "[ERROR] " ++ e), 1⟩
    else ⟨warnLines ++ [okLine1, okLine2], 0⟩

/-! Concrete documents: a fully consistent bundle, used by the end-to-end
runs, and the deviating variants the spec's examples describe. -/

/-- A framework module whose two biomarker variables carry the expected
thresholds, with the optional-mapping flag set. -/
def doc_cbim : Yaml :=
  .dict [("channels", .dict [("biomarker", .dict [("variables", .list
      [.dict [("id", .str "gfap_pg_ml"), ("ct_threshold", .num 30)],
       .dict [("id", .str "uchl1_pg_ml"), ("ct_threshold", .num 360)]])])]),
    ("schema_contract", .dict [("mapping_fields_optional", .bool true)])]

/-- A provenance module with both expected thresholds and both required
applicability contexts. -/
def doc_prov : Yaml :=
  .dict [("threshold_provenance", .dict
      [("gfap_ct_threshold", .dict [("value", .num 30),
          ("applies_to", .list [.str "adult", .str "mild_tbi"])]),
       ("uchl1_ct_threshold", .dict [("value", .num 360),
          ("applies_to", .list [.str "adult", .str "mild_tbi"])])]),
    ("schema_contract", .dict [("mapping_fields_optional", .bool true)])]

/-- `doc_cbim` with the GFAP threshold changed to 29.5 (the spec's example
input for rule 1's mismatch error). -/
def doc_cbim29 : Yaml :=
  .dict [("channels", .dict [("biomarker", .dict [("variables", .list
      [.dict [("id", .str "gfap_pg_ml"), ("ct_threshold", .num (29.5 : ℚ))],
       .dict [("id", .str "uchl1_pg_ml"), ("ct_threshold", .num 360)]])])]),
    ("schema_contract", .dict [("mapping_fields_optional", .bool true)])]

/-- A temporal module in the legacy shape: non-empty `key_biomarker_windows`
with all four legacy keys at their expected values, canonical phase ids
matched by the detail blocks, and matching decision thresholds. -/
def doc_temporal : Yaml :=
  .dict [
    ("schema_contract", .dict [("canonical_phase_ids",
        .list [.str "hyperacute", .str "acute", .str "subacute"])]),
    ("phases", .dict [
      ("hyperacute", .dict [("id", .str "hyperacute")]),
      ("acute", .dict [("id", .str "acute")]),
      ("subacute", .dict [("id", .str "subacute"),
        ("key_biomarker_windows", .dict [
          ("gfap_clearance_half_life_hours", .num 24),
          ("gfap_clearance_half_life_range_hours", .list [.num 24, .num 36]),
          ("uchl1_clearance_half_life_hours", .num 8),
          ("uchl1_clearance_half_life_range_hours", .list [.num 7, .num 9])])])]),
    ("biomarker_kinetics", .dict [
      ("gfap", .dict [("ct_decision_threshold", .dict [("value", .num 30)])]),
      ("uchl1", .dict [("ct_decision_threshold", .dict [("value", .num 360)])])])]

/-- `doc_temporal` in the current (v3) shape: an empty legacy container and a
matching `biomarker_clearance_kinetics` block (the spec's example input for
rule 3's current-shape branch). -/
def doc_temporal_v3 : Yaml :=
  .dict [
    ("schema_contract", .dict [("canonical_phase_ids",
        .list [.str "hyperacute", .str "acute", .str "subacute"])]),
    ("phases", .dict [
      ("hyperacute", .dict [("id", .str "hyperacute")]),
      ("acute", .dict [("id", .str "acute")]),
      ("subacute", .dict [("id", .str "subacute"),
        ("key_biomarker_windows", .dict []),
        ("biomarker_clearance_kinetics", .dict [
          ("gfap", .dict [("half_life_hours", .list [.num 24, .num 36])]),
          ("uchl1", .dict [("half_life_hours", .list [.num 7, .num 9])])])])]),
    ("biomarker_kinetics", .dict [
      ("gfap", .dict [("ct_decision_threshold", .dict [("value", .num 30)])]),
      ("uchl1", .dict [("ct_decision_threshold", .dict [("value", .num 360)])])])]

/-- The eighteen supplementary element identifiers of the consistent imaging
module, `tapvi` among them. -/
def suppIds : List String :=
  ["s01", "s02", "s03", "s04", "s05", "s06", "s07", "s08", "s09", "s10",
   "s11", "s12", "s13", "s14", "s15", "s16", "s17", "tapvi"]

/-- An imaging module with the canonical phase ids of `doc_temporal`, 9 core
and 18 supplementary elements, `tapvi` present, `tamvi` absent, every phase
reference inside the canonical set, and a complete mapping template. -/
def doc_imaging : Yaml :=
  .dict [
    ("schema_contract", .dict [
      ("canonical_phase_ids", .list [.str "hyperacute", .str "acute", .str "subacute"]),
      ("mapping_fields_optional", .bool true)]),
    ("core_cdes", .list (List.replicate 9
      (Yaml.dict [("temporal_phases", .list [.str "acute"])]))),
    ("supplementary_cdes", .list (suppIds.map fun s => Yaml.dict [("id", .str s)])),
    ("standards_mapping_hooks", .dict [("default_mapping_template", .dict
      [("radlex_id", .null), ("dicom_sr_code", .null),
       ("fhir_observation_code", .null), ("omop_concept_id", .null)])])]

/-- `doc_imaging` with one supplementary element dropped: 17 entries, `tapvi`
still present, `tamvi` absent (the spec's example input for rule 7). -/
def doc_imaging17 : Yaml :=
  .dict [
    ("schema_contract", .dict [
      ("canonical_phase_ids", .list [.str "hyperacute", .str "acute", .str "subacute"]),
      ("mapping_fields_optional", .bool true)]),
    ("core_cdes", .list (List.replicate 9
      (Yaml.dict [("temporal_phases", .list [.str "acute"])]))),
    ("supplementary_cdes", .list ((suppIds.drop 1).map fun s => Yaml.dict [("id", .str s)])),
    ("standards_mapping_hooks", .dict [("default_mapping_template", .dict
      [("radlex_id", .null), ("dicom_sr_code", .null),
       ("fhir_observation_code", .null), ("omop_concept_id", .null)])])]

/-- A module carrying only the optional-mapping flag. -/
def doc_flag : Yaml :=
  .dict [("schema_contract", .dict [("mapping_fields_optional", .bool true)])]

/-- The fully consistent loaded-modules mapping. -/
def loadedGood : List (String × Yaml) :=
  [("cbim_framework", doc_cbim), ("clinical_entities", doc_flag),
   ("imaging_cdes", doc_imaging), ("temporal_phases", doc_temporal),
   ("provenance", doc_prov), ("implementation_science", doc_flag),
   ("methodology_extraction", .dict [])]

/-- A file system holding the fully consistent bundle. -/
def goodLoad (f : String) : LoadResult :=
  if f = "cbim_framework.yaml" then .ok doc_cbim
  else if f = "clinical_entities.yaml" then .ok doc_flag
  else if f = "imaging_cdes.yaml" then .ok doc_imaging
  else if f = "temporal_phases.yaml" then .ok doc_temporal
  else if f = "provenance.yaml" then .ok doc_prov
  else if f = "implementation_science.yaml" then .ok doc_flag
  else if f = "methodology_extraction.yaml" then .ok (.dict [])
  else .missing

/-- The spec's first end-to-end scenario: consistent bundle, `jsonschema`
unavailable, no skip flag. -/
def world9 : World where
  load := goodLoad
  skipSchema := false
  jsonschemaAvailable := false
  schemaExists := false
  schemaDefs := []
  schemaValidate := fun _ _ => []

/-- C5: for all tolerance-compared values, `nearly_equal a b` holds iff
`|a - b| ≤ 1e-9` (absolute tolerance `1e-9`, zero relative tolerance), the
comparison is independent of operand order, and the looked-up operands are
coerced to float before comparing (a numeric document value enters as itself,
a bool as 0 or 1, the float model being `ℚ` with exact `1e-9`). -/
theorem c5_nearly_equal_tolerance :
    (∀ a b : ℚ, nearly_equal a b = true ↔ |a - b| ≤ 1 / 1000000000)
    ∧ (∀ a b : ℚ, nearly_equal a b = nearly_equal b a)
    ∧ (∀ x e : ℚ, nearly_equalY (.num x) e = nearly_equal x e)
    ∧ (∀ e : ℚ, nearly_equalY (.bool true) e = nearly_equal 1 e)
    ∧ (∀ e : ℚ, nearly_equalY (.bool false) e = nearly_equal 0 e) := by
  refine ⟨fun a b => by simp [nearly_equal], fun a b => ?_, fun _ _ => rfl,
    fun _ => rfl, fun _ => rfl⟩
  simp only [nearly_equal, abs_sub_comm a b]

/-- C1: rule 1 performs four independent checks — one per analyte per module,
each depending only on its own lookup — where a missing lookup yields exactly
the one missing error naming the field path, a present numeric value that is
not tolerance-equal to the expected constant (30.0 for GFAP, 360.0 for
UCH-L1) yields exactly the one mismatch error naming the actual and the
expected value, and a tolerance-equal value yields nothing; a framework
module with GFAP threshold 29.5 yields exactly one mismatch error naming 29.5
and 30.0, and the all-matching bundle yields zero errors. -/
theorem c1_threshold_consistency :
    (∀ cbim provenance : Yaml,
      validate_threshold_consistency cbim provenance =
        threshold_check (get_biomarker_threshold cbim "gfap_pg_ml")
          "cbim_framework.yaml missing biomarker variable 'gfap_pg_ml' ct_threshold"
          "GFAP threshold mismatch in cbim_framework.yaml: " 30
        ++ threshold_check (get_biomarker_threshold cbim "uchl1_pg_ml")
          "cbim_framework.yaml missing biomarker variable 'uchl1_pg_ml' ct_threshold"
          "UCH-L1 threshold mismatch in cbim_framework.yaml: " 360
        ++ threshold_check
          (((provenance.getD "threshold_provenance" (.dict [])).getD
              "gfap_ct_threshold" (.dict [])).get "value")
          "provenance.yaml missing threshold_provenance.gfap_ct_threshold.value"
          "GFAP threshold mismatch in provenance.yaml: " 30
        ++ threshold_check
          (((provenance.getD "threshold_provenance" (.dict [])).getD
              "uchl1_ct_threshold" (.dict [])).get "value")
          "provenance.yaml missing threshold_provenance.uchl1_ct_threshold.value"
          "UCH-L1 threshold mismatch in provenance.yaml: " 360)
    ∧ (∀ m p e, threshold_check .null m p e = [m])
    ∧ (∀ (x : ℚ) m p e, nearly_equal x e = false →
        threshold_check (.num x) m p e = [p ++ pyNumStr x ++ " != " ++ pyFloatStr e])
    ∧ (∀ (x : ℚ) m p e, nearly_equal x e = true → threshold_check (.num x) m p e = [])
    ∧ validate_threshold_consistency doc_cbim29 doc_prov =
        ["GFAP threshold mismatch in cbim_framework.yaml: 29.5 != 30.0"]
    ∧ validate_threshold_consistency doc_cbim doc_prov = [] := by
  refine ⟨fun _ _ => rfl, fun _ _ _ => rfl, fun x m p e h => ?_, fun x m p e h => ?_,
    by rfl, by rfl⟩
  · have hy : nearly_equalY (Yaml.num x) e = nearly_equal x e := rfl
    have hs : (Yaml.num x).pyStr = pyNumStr x := rfl
    unfold threshold_check
    rw [if_neg (by simp : ¬ (Yaml.num x = Yaml.null)), hy, h, hs]
    simp
  · have hy : nearly_equalY (Yaml.num x) e = nearly_equal x e := rfl
    unfold threshold_check
    rw [if_neg (by simp : ¬ (Yaml.num x = Yaml.null)), hy, h]
    simp

/-- C2: rule 3 resolves the document shape once — a truthy (present and
non-empty) legacy `key_biomarker_windows` container selects exactly the legacy
checks, whose result is a function of that container alone (in particular it
is unchanged by any `biomarker_clearance_kinetics` content), and an absent or
empty legacy container selects exactly the current-shape checks; each legacy
key is compared by exact equality (a scalar differing from 24 errs even when
the difference is within the 1e-9 tolerance) with a missing or mismatch error
per key; the all-matching legacy module and the all-matching current-shape
module each produce zero errors. -/
theorem c2_temporal_kinetics_shape :
    (∀ temporal : Yaml,
      ((((temporal.getD "phases" (.dict [])).getD "subacute" (.dict [])).getD
          "key_biomarker_windows" (.dict [])).truthy = true →
        validate_temporal_kinetics temporal =
          legacyKineticsChecks (((temporal.getD "phases" (.dict [])).getD
            "subacute" (.dict [])).getD "key_biomarker_windows" (.dict []))))
    ∧ (∀ temporal : Yaml,
      ((((temporal.getD "phases" (.dict [])).getD "subacute" (.dict [])).getD
          "key_biomarker_windows" (.dict [])).truthy = false →
        validate_temporal_kinetics temporal =
          currentKineticsChecks ((temporal.getD "phases" (.dict [])).getD
            "subacute" (.dict []))))
    ∧ (∀ windows other : Yaml, windows.truthy = true →
        validate_temporal_kinetics (.dict [("phases", .dict [("subacute", .dict
          [("key_biomarker_windows", windows),
           ("biomarker_clearance_kinetics", other)])])]) =
          legacyKineticsChecks windows)
    ∧ (∀ x : ℚ, ¬ x = 24 →
        legacyKineticsChecks (.dict
          [("gfap_clearance_half_life_hours", .num x),
           ("gfap_clearance_half_life_range_hours", .list [.num 24, .num 36]),
           ("uchl1_clearance_half_life_hours", .num 8),
           ("uchl1_clearance_half_life_range_hours", .list [.num 7, .num 9])]) =
          ["Temporal kinetics mismatch for gfap_clearance_half_life_hours: " ++
            pyNumStr x ++ " != 24"])
    ∧ legacyKineticsChecks (.dict
          [("gfap_clearance_half_life_range_hours", .list [.num 24, .num 36]),
           ("uchl1_clearance_half_life_hours", .num 8),
           ("uchl1_clearance_half_life_range_hours", .list [.num 7, .num 9])]) =
        ["temporal_phases.yaml missing subacute.key_biomarker_windows.gfap_clearance_half_life_hours"]
    ∧ validate_temporal_kinetics doc_temporal = []
    ∧ validate_temporal_kinetics doc_temporal_v3 = [] := by
  refine ⟨fun t h => ?_, fun t h => ?_, fun windows other h => ?_, fun x h => ?_,
    by rfl, by rfl, by rfl⟩
  · simp only [validate_temporal_kinetics, h, if_true]
  · simp only [validate_temporal_kinetics, h, Bool.false_eq_true, if_false]
  · have e : validate_temporal_kinetics (.dict [("phases", .dict [("subacute", .dict
        [("key_biomarker_windows", windows),
         ("biomarker_clearance_kinetics", other)])])]) =
        if windows.truthy then legacyKineticsChecks windows
        else currentKineticsChecks (.dict
          [("key_biomarker_windows", windows),
           ("biomarker_clearance_kinetics", other)]) := rfl
    rw [e, h]
    simp
  · have e1 : (Yaml.num x = Yaml.null) = False := by simp
    have e2 : (Yaml.num x = Yaml.num 24) = False := by simp [h]
    have e3 : (Yaml.num 24).pyRepr = pyNumStr 24 := rfl
    simp [legacyKineticsChecks, EXPECTED_KINETICS, e1, e2, e3, Yaml.get, Yaml.getD,
      List.lookup, Yaml.pyStr]
    rw [show (Yaml.num x).pyRepr = pyNumStr x from rfl, String.append_assoc]
    rfl

theorem yamlStr_injective : Function.Injective Yaml.str := by
  intro a b h
  injection h

/-- Membership in `sorted(set(used) - set(valid))` as the rules compute it. -/
theorem mem_pySortedDiff (used valid : List Yaml) (v : Yaml) :
    v ∈ pySortedYaml ((used.dedup).filter fun u => decide (u ∉ valid)) ↔
      v ∈ used ∧ v ∉ valid := by
  rw [pySortedYaml, List.mem_insertionSort]
  simp [List.mem_filter]

/-- `sorted(set(used) - set(valid))` holds no duplicates. -/
theorem nodup_pySortedDiff (used valid : List Yaml) :
    (pySortedYaml ((used.dedup).filter fun u => decide (u ∉ valid))).Nodup :=
  (List.perm_insertionSort _ _).nodup_iff.mpr ((used.nodup_dedup).filter _)

/-- `pySortedYaml` sorts by the string key. -/
theorem sorted_pySortedDiff (l : List Yaml) :
    List.Sorted (fun a b => pyStrLe a.sortKey b.sortKey = true) (pySortedYaml l) :=
  List.sorted_insertionSort _ l

/-- `sorted(set(used) - set(valid))` is empty iff every used value is valid. -/
theorem pySortedDiff_eq_nil_iff (used valid : List Yaml) :
    pySortedYaml ((used.dedup).filter fun u => decide (u ∉ valid)) = [] ↔
      ∀ v ∈ used, v ∈ valid := by
  rw [List.eq_nil_iff_forall_not_mem]
  constructor
  · intro h v hv
    by_contra hnv
    exact h v ((mem_pySortedDiff used valid v).mpr ⟨hv, hnv⟩)
  · intro h v hv
    rcases (mem_pySortedDiff used valid v).mp hv with ⟨h1, h2⟩
    exact h2 (h v h1)

/-- An imaging module with no elements whose canonical phase list is the
temporal module's reordered (the spec's example input for rule 6). -/
def doc_imaging_reordered : Yaml :=
  .dict [("schema_contract", .dict [("canonical_phase_ids",
      .list [.str "hyperacute", .str "subacute", .str "acute"])])]

/-- C6: rule 6 emits exactly one alignment error whenever the temporal and
imaging canonical phase id lists differ in any way (order included) and none
when they are identical; separately it emits exactly one error carrying,
sorted (by the string order, which `pyStrLe` decides) and deduplicated, every
referenced phase id outside the temporal canonical set, and no such error
when every reference is in the set; the spec's reordered lists produce
exactly the one alignment error. -/
theorem c6_phase_alignment :
    (∀ (temporal imaging : Yaml) (tids iids : List String),
      (temporal.getD "schema_contract" (.dict [])).getD "canonical_phase_ids"
          (.list []) = Yaml.list (tids.map Yaml.str) →
      (imaging.getD "schema_contract" (.dict [])).getD "canonical_phase_ids"
          (.list []) = Yaml.list (iids.map Yaml.str) →
      validate_phase_alignment temporal imaging =
        (if tids = iids then []
         else ["Canonical phase ID mismatch between temporal_phases.yaml and imaging_cdes.yaml"])
        ++ (if ∀ v ∈ referencedPhaseIds imaging, v ∈ tids.map Yaml.str then []
            else ["imaging_cdes.yaml references unknown temporal phase IDs: " ++
              (Yaml.list (pySortedYaml (((referencedPhaseIds imaging).dedup).filter
                fun u => decide (u ∉ tids.map Yaml.str)))).pyRepr]))
    ∧ (∀ (used valid : List Yaml) (v : Yaml),
        v ∈ pySortedYaml ((used.dedup).filter fun u => decide (u ∉ valid)) ↔
          v ∈ used ∧ v ∉ valid)
    ∧ (∀ used valid : List Yaml,
        (pySortedYaml ((used.dedup).filter fun u => decide (u ∉ valid))).Nodup)
    ∧ (∀ used valid : List Yaml,
        List.Sorted (fun a b => pyStrLe a.sortKey b.sortKey = true)
          (pySortedYaml ((used.dedup).filter fun u => decide (u ∉ valid))))
    ∧ (∀ a b : String, pyStrLe a b = true ↔ a ≤ b)
    ∧ validate_phase_alignment doc_temporal doc_imaging_reordered =
        ["Canonical phase ID mismatch between temporal_phases.yaml and imaging_cdes.yaml"]
    ∧ validate_phase_alignment doc_temporal doc_imaging = [] := by
  refine ⟨fun temporal imaging tids iids h1 h2 => ?_,
    fun used valid v => mem_pySortedDiff used valid v,
    fun used valid => nodup_pySortedDiff used valid,
    fun used valid => sorted_pySortedDiff _,
    fun a b => pyStrLe_iff_le a b, by rfl, by rfl⟩
  simp only [validate_phase_alignment, h1, h2]
  have hiter : (Yaml.list (tids.map Yaml.str)).pyIter = tids.map Yaml.str := rfl
  rw [hiter]
  have halign : (Yaml.list (tids.map Yaml.str) ≠ Yaml.list (iids.map Yaml.str)) ↔
      ¬ (tids = iids) := by
    constructor
    · intro hx hy
      exact hx (by rw [hy])
    · intro hx hy
      injection hy with hmap
      exact hx (List.map_injective_iff.mpr yamlStr_injective hmap)
  have hun : (pySortedYaml (((referencedPhaseIds imaging).dedup).filter
        fun u => decide (u ∉ tids.map Yaml.str)) ≠ []) ↔
      ¬ ∀ v ∈ referencedPhaseIds imaging, v ∈ tids.map Yaml.str :=
    not_congr (pySortedDiff_eq_nil_iff _ _)
  rw [if_congr halign rfl rfl, ite_not, if_congr hun rfl rfl, ite_not]

/-- An imaging module with 9 core elements and 18 supplementary elements
where `tapvi` is absent and the deprecated `tamvi` is present. -/
def doc_imaging_tamvi : Yaml :=
  .dict [
    ("core_cdes", .list (List.replicate 9 (Yaml.dict []))),
    ("supplementary_cdes", .list (("tamvi" :: suppIds.dropLast).map
      fun s => Yaml.dict [("id", .str s)]))]

/-- C7: rule 7 runs four independent checks — core count 9, supplementary
count 18, `tapvi` present among the supplementary ids, deprecated `tamvi`
absent — each with its own error; with 9 core elements, 17 supplementary
elements, `tapvi` present and `tamvi` absent, exactly the one count error
(expected 18 got 17) and no identifier error is produced; the consistent
module produces none; and the two identifier errors fire together when
`tapvi` is missing and `tamvi` present. -/
theorem c7_tapvi_and_counts :
    (∀ imaging : Yaml,
      validate_tapvi_and_counts imaging =
        (if (imaging.getD "core_cdes" (.list [])).pyLen = 9 then []
         else ["Expected 9 core CDEs, found " ++
           toString (imaging.getD "core_cdes" (.list [])).pyLen])
        ++ (if (imaging.getD "supplementary_cdes" (.list [])).pyLen = 18 then []
            else ["Expected 18 supplementary CDEs, found " ++
              toString (imaging.getD "supplementary_cdes" (.list [])).pyLen])
        ++ (if Yaml.str "tapvi" ∈ (imaging.getD "supplementary_cdes" (.list [])).pyIter.map
              (fun cde => cde.get "id") then []
            else ["imaging_cdes.yaml missing supplementary CDE id 'tapvi'"])
        ++ (if Yaml.str "tamvi" ∈ (imaging.getD "supplementary_cdes" (.list [])).pyIter.map
              (fun cde => cde.get "id") then
              ["imaging_cdes.yaml still contains deprecated id 'tamvi'"]
            else []))
    ∧ validate_tapvi_and_counts doc_imaging17 =
        ["Expected 18 supplementary CDEs, found 17"]
    ∧ validate_tapvi_and_counts doc_imaging = []
    ∧ validate_tapvi_and_counts doc_imaging_tamvi =
        ["imaging_cdes.yaml missing supplementary CDE id 'tapvi'",
         "imaging_cdes.yaml still contains deprecated id 'tamvi'"] := by
  refine ⟨fun imaging => ?_, by rfl, by rfl, by rfl⟩
  simp only [validate_tapvi_and_counts, decide_eq_true_eq, ite_not]
  simp [List.append_assoc]

/-- A temporal module whose only canonical id `acute` is matched solely by a
detail entry with a falsy (empty) id, next to a detail entry that is not a
mapping at all. -/
def doc_temporal_falsy : Yaml :=
  .dict [("schema_contract", .dict [("canonical_phase_ids", .list [.str "acute"])]),
    ("phases", .dict [("acute", .dict [("id", .str "")]),
      ("extra", .str "acute")])]

/-- A temporal module whose canonical id is covered and whose detail blocks
declare an additional id absent from the canonical list. -/
def doc_temporal_extra : Yaml :=
  .dict [("schema_contract", .dict [("canonical_phase_ids", .list [.str "acute"])]),
    ("phases", .dict [("acute", .dict [("id", .str "acute")]),
      ("bonus", .dict [("id", .str "zzz")])])]

/-- C10: rule 5 collects declared phase ids only from detail payloads that are
mappings carrying a truthy `id` — any other entry contributes nothing, whether
absent, non-mapping, or with a missing/falsy id — so the rule reports no error
exactly when every canonical id is some such payload's id; a canonical id
matched only by a falsy-id or non-mapping entry is reported in the sorted
missing-ID error, while detail ids absent from the canonical list are never
flagged. -/
theorem c10_phase_id_completeness :
    (∀ (k : String) (payload : Yaml) (es1 es2 : List (String × Yaml)),
      (payload.isDict && (payload.get "id").truthy) = false →
        actualPhaseIds (.dict (es1 ++ (k, payload) :: es2)) =
          actualPhaseIds (.dict (es1 ++ es2)))
    ∧ (∀ (k : String) (payload : Yaml) (es1 es2 : List (String × Yaml)),
      (payload.isDict && (payload.get "id").truthy) = true →
        actualPhaseIds (.dict (es1 ++ (k, payload) :: es2)) =
          actualPhaseIds (.dict es1) ++ payload.get "id" :: actualPhaseIds (.dict es2))
    ∧ (∀ (temporal : Yaml) (canonical : List Yaml),
      (temporal.getD "schema_contract" (.dict [])).getD "canonical_phase_ids"
          (.list []) = Yaml.list canonical →
        (validate_temporal_phase_ids temporal = [] ↔
          ∀ c ∈ canonical, c ∈ actualPhaseIds (temporal.getD "phases" (.dict []))))
    ∧ validate_temporal_phase_ids doc_temporal_falsy =
        ["temporal_phases.yaml missing phase IDs declared in schema_contract: ['acute']"]
    ∧ validate_temporal_phase_ids doc_temporal_extra = [] := by
  refine ⟨fun k payload es1 es2 h => ?_, fun k payload es1 es2 h => ?_,
    fun temporal canonical h => ?_, by rfl, by rfl⟩
  · have h' : ¬ (payload.isDict = true ∧ (payload.get "id").truthy = true) := by
      simpa [Bool.and_eq_true] using h
    simp [actualPhaseIds, Yaml.values, List.filterMap_cons, List.filterMap_map, h']
  · have h' : payload.isDict = true ∧ (payload.get "id").truthy = true := by
      simpa [Bool.and_eq_true] using h
    simp [actualPhaseIds, Yaml.values, List.filterMap_cons, List.filterMap_map, h']
  · simp only [validate_temporal_phase_ids, h]
    have hiter : (Yaml.list canonical).pyIter = canonical := rfl
    rw [hiter]
    by_cases hall : ∀ c ∈ canonical, c ∈ actualPhaseIds (temporal.getD "phases" (.dict []))
    · rw [if_neg (by
        simpa using not_not_intro ((pySortedDiff_eq_nil_iff _ _).mpr hall))]
      simpa using hall
    · rw [if_pos (by
        simpa using fun hc => hall ((pySortedDiff_eq_nil_iff _ _).mp hc))]
      simp [hall]

/-- C4 counterexample: a loaded-modules mapping holding six of the seven
module trees but not `cbim_framework`; `validate_mapping_hooks` raises
`KeyError` on it instead of returning normally, refuting the claim that every
rule function skips cleanly when a module is absent. -/
theorem c4_counterexample :
    validate_mapping_hooks
      [("clinical_entities", doc_flag), ("imaging_cdes", doc_imaging),
       ("temporal_phases", doc_temporal), ("provenance", doc_prov),
       ("implementation_science", doc_flag), ("methodology_extraction", .dict [])] =
      Except.error "KeyError: 'cbim_framework'" := by rfl

/-- C4 (amended): `validate_mapping_hooks` subscripts the mapping directly, so
with `cbim_framework` absent it raises `KeyError('cbim_framework')`; removing
any one of its five required module names from the otherwise complete bundle
makes it raise the `KeyError` naming that module; with all modules present it
returns normally. -/
theorem c4_mapping_hooks_raises :
    (∀ files : List (String × Yaml), files.lookup "cbim_framework" = none →
      validate_mapping_hooks files = Except.error "KeyError: 'cbim_framework'")
    ∧ (∀ name ∈ modules_requiring_mappings,
        validate_mapping_hooks (loadedGood.filter fun kv => decide (kv.1 ≠ name)) =
          Except.error ("KeyError: '" ++ name ++ "'"))
    ∧ validate_mapping_hooks loadedGood = Except.ok [] := by
  refine ⟨fun files h => ?_, fun name h => ?_, by rfl⟩
  · have e : pySubscript files "cbim_framework" =
        Except.error "KeyError: 'cbim_framework'" := by
      simp [pySubscript, h]
    simp [validate_mapping_hooks, modules_requiring_mappings, mappingFlagErrors, e,
      Except.bind]
  · fin_cases h <;> rfl

/-- The loading loop accumulates exactly one error per failed load attempt,
over every file of the list. -/
theorem loadFold_length (w : World) :
    ∀ (l : List (String × String)) (acc : List String × List (String × Yaml)),
      (l.foldl (loadStep w) acc).1.length =
        acc.1.length + (l.filter fun mf => (w.load mf.2).failed).length
  | [], acc => by simp
  | mf :: rest, acc => by
      simp only [List.foldl_cons, List.filter_cons]
      rcases hl : w.load mf.2 with _ | msg | doc
      · rw [loadFold_length w rest _]
        simp [loadStep, hl, LoadResult.failed]
        omega
      · rw [loadFold_length w rest _]
        simp [loadStep, hl, LoadResult.failed]
        omega
      · rw [loadFold_length w rest _]
        simp [loadStep, hl, LoadResult.failed]

/-- On any load failure, `main` prints exactly the load errors and exits 1. -/
theorem main_halts_on_load_failure (w : World) (h : (loadPhase w).1 ≠ []) :
    main' w = Except.ok ⟨(loadPhase w).1.map fun e => "[ERROR] " ++ e, 1⟩ := by
  show (accumulated w).map _ = _
  simp only [accumulated, if_pos h, Except.map, h, ne_eq, not_false_eq_true, if_true,
    List.map_nil, List.nil_append]

/-- The consistent bundle with `provenance.yaml` deleted; schema machinery is
fully available and its oracle would report errors, so any schema or
consistency check that ran would leave a trace in the output. -/
def world8 : World where
  load := fun f => if f = "provenance.yaml" then .missing else goodLoad f
  skipSchema := false
  jsonschemaAvailable := true
  schemaExists := true
  schemaDefs := YAML_FILES.map Prod.fst
  schemaValidate := fun _ _ => ["schema oracle fired"]

/-- C8: the orchestrator attempts all seven loads before deciding (the error
list holds exactly one entry per failing file across the whole list, however
early the first failure is); when any load failed, the output is exactly the
load errors as `[ERROR]` lines with exit code 1 — no schema or consistency
stage contributes, and the result depends on nothing but the load results;
with exactly one file missing (and a schema oracle that would have reported,
had any check run), exactly one `[ERROR]` line is printed. -/
theorem c8_load_failure_halts :
    (∀ w : World, (loadPhase w).1 ≠ [] →
      main' w = Except.ok ⟨(loadPhase w).1.map fun e => "[ERROR] " ++ e, 1⟩)
    ∧ (∀ w : World, (loadPhase w).1.length =
        (YAML_FILES.filter fun mf => (w.load mf.2).failed).length)
    ∧ (∀ w w' : World, w.load = w'.load → (loadPhase w).1 ≠ [] →
        main' w = main' w')
    ∧ main' world8 = Except.ok
        ⟨["[ERROR] Missing required ontology file: provenance.yaml"], 1⟩ := by
  refine ⟨fun w h => main_halts_on_load_failure w h, fun w => ?_,
    fun w w' hl h => ?_, by rfl⟩
  · simpa using loadFold_length w YAML_FILES ([], [])
  · have hstep : loadStep w = loadStep w' := by
      funext acc mf
      simp only [loadStep, hl]
    have hp : loadPhase w = loadPhase w' := by
      simp only [loadPhase, hstep]
    have h' : (loadPhase w').1 ≠ [] := by rw [← hp]; exact h
    rw [main_halts_on_load_failure w h, main_halts_on_load_failure w' h', hp]

/-- The bundle of `world9` with a 17-element supplementary imaging list, the
`jsonschema` package available, and `schema.json` missing. -/
def world3 : World where
  load := fun f => if f = "imaging_cdes.yaml" then .ok doc_imaging17 else goodLoad f
  skipSchema := false
  jsonschemaAvailable := true
  schemaExists := false
  schemaDefs := []
  schemaValidate := fun _ _ => []

/-- C3 counterexample: with `schema.json` missing (library available, no skip
flag), the same run still executes the consistency rules — its output holds
the missing-schema error and, right beside it, rule 7's supplementary-count
error — refuting the claim that the run halts and no consistency rule
executes after the missing-schema error is recorded. -/
theorem c3_counterexample :
    main' world3 = Except.ok
      ⟨["[ERROR] schema.json not found",
        "[ERROR] Expected 18 supplementary CDEs, found 17"], 1⟩ := by rfl

/-- C3 (amended): a missing `schema.json` (library available, skip flag not
given) records the missing-schema error and skips only the per-module schema
checks; every consistency rule still executes in the same run and its errors
are reported alongside — the output is exactly the missing-schema error
followed by the consistency errors, with exit code 1. Only load failures halt
checking. With the otherwise consistent bundle the run fails with exactly the
missing-schema error. -/
theorem c3_missing_schema_continues :
    (∀ w : World, (loadPhase w).1 = [] → w.skipSchema = false →
      w.jsonschemaAvailable = true → w.schemaExists = false →
      ∀ ce, consistencyErrors (loadPhase w).2 = Except.ok ce →
        main' w = Except.ok
          ⟨("schema.json not found" :: ce).map fun e => "[ERROR] " ++ e, 1⟩)
    ∧ main' (World.mk goodLoad false true false [] fun _ _ => []) =
        Except.ok ⟨["[ERROR] schema.json not found"], 1⟩ := by
  refine ⟨fun w h0 h1 h2 h3 ce hce => ?_, by rfl⟩
  have hs : schemaPhase w (loadPhase w).2 = ([], ["schema.json not found"]) := by
    simp [schemaPhase, h1, h2, h3]
  show (accumulated w).map _ = _
  simp only [accumulated, hce, Except.map, hs]
  simp [h0]

/-- A string with prefix `p` differs from `t` whenever they disagree at the
second character. -/
theorem prefixed_ne (p t : String) (hl : 1 < p.data.length)
    (h : p.data[1]? ≠ t.data[1]?) (s : String) : p ++ s ≠ t := by
  intro he
  apply h
  have h2 : t.data = p.data ++ s.data := by rw [← he, String.data_append]
  rw [h2, List.getElem?_append, if_pos hl]

theorem warn_ne_okLine1 (s : String) : "[WARN] " ++ s ≠ okLine1 :=
  prefixed_ne _ _ (by decide) (by decide) s

theorem warn_ne_okLine2 (s : String) : "[WARN] " ++ s ≠ okLine2 :=
  prefixed_ne _ _ (by decide) (by decide) s

theorem err_ne_okLine1 (s : String) : "[ERROR] " ++ s ≠ okLine1 :=
  prefixed_ne _ _ (by decide) (by decide) s

theorem err_ne_okLine2 (s : String) : "[ERROR] " ++ s ≠ okLine2 :=
  prefixed_ne _ _ (by decide) (by decide) s

/-- C9: the exit code is 0 exactly when the error list accumulated over the
stages that ran is empty — warnings never enter that decision — and the two
`[OK]` lines appear in the output exactly on such a fully successful run;
when the `jsonschema` package is unavailable (and the flag not given) the
schema stage yields exactly the one warning and no error, whatever the
documents; the consistent bundle with `jsonschema` unavailable exits 0
printing exactly one `[WARN]` line, the two `[OK]` lines and no `[ERROR]`
line. -/
theorem c9_exit_code_success :
    (∀ (w : World) (r : RunResult) (ws es : List String),
      main' w = Except.ok r → accumulated w = Except.ok (ws, es) →
      ((r.exitCode = 0 ↔ es = [])
        ∧ (okLine1 ∈ r.output ↔ es = [])
        ∧ (okLine2 ∈ r.output ↔ es = [])))
    ∧ (∀ w : World, w.skipSchema = false → w.jsonschemaAvailable = false →
        ∀ loaded, schemaPhase w loaded =
          (["jsonschema package not installed; skipping schema validation"], []))
    ∧ main' world9 = Except.ok
        ⟨["[WARN] jsonschema package not installed; skipping schema validation",
          okLine1, okLine2], 0⟩ := by
  refine ⟨fun w r ws es hm ha => ?_, fun w h1 h2 loaded => ?_, by rfl⟩
  · rcases es with _ | ⟨e, es'⟩
    · have h2 : main' w = Except.ok
          ⟨(ws.map fun s => "[WARN] " ++ s) ++ [okLine1, okLine2], 0⟩ := by
        show (accumulated w).map _ = _
        rw [ha]
        rfl
      rw [hm] at h2
      injection h2 with h3
      subst h3
      refine ⟨by simp, ?_, ?_⟩
      · simp
      · simp
    · have h2 : main' w = Except.ok
          ⟨(ws.map fun s => "[WARN] " ++ s) ++ (e :: es').map (fun x => "[ERROR] " ++ x), 1⟩ := by
        show (accumulated w).map _ = _
        rw [ha]
        rfl
      rw [hm] at h2
      injection h2 with h3
      subst h3
      refine ⟨by simp, ?_, ?_⟩
      · simp only [List.mem_append, List.mem_map]
        constructor
        · rintro (⟨s, _, hs⟩ | ⟨s, _, hs⟩)
          · exact absurd hs (warn_ne_okLine1 s)
          · exact absurd hs (err_ne_okLine1 s)
        · intro hfalse
          cases hfalse
      · simp only [List.mem_append, List.mem_map]
        constructor
        · rintro (⟨s, _, hs⟩ | ⟨s, _, hs⟩)
          · exact absurd hs (warn_ne_okLine2 s)
          · exact absurd hs (err_ne_okLine2 s)
        · intro hfalse
          cases hfalse
  · simp [schemaPhase, h1, h2]
